import Mathlib

/-!
Verification of the MatDec beam engine against its specification.

The embedding translates the Python sources into Lean over exact rational
arithmetic (`ℚ` in place of IEEE floats, so "within numeric tolerance"
statements become exact equalities):

* `core/loads.py` — load model, load-case combination, simply supported
  statics (reactions, shear/moment diagrams);
* `core/co2_calc.py` together with `Version1/core/co2_calc.py` — the
  materials table wrapper (mass, embodied CO2, bending resistance);
* `core/deflection.py` — closed-form deflection;
* `main_beam_demo.py` — the candidate evaluation loop and the
  filter/sort/select decision.

Python raises exceptions; fallible operations are embedded as
`Except String`.  Python `x / 0.0` raises `ZeroDivisionError`; Lean division
by zero yields 0, and wherever that distinction matters the embedding keeps
an explicit `Except` wrapper (`analyzeE`).
-/

namespace MatDec

/-- Concentrated load acting on the beam (core/loads.py, `PointLoad`).
`value_kN` is negative for downward, `position_m` is the distance from the
left support. -/
structure PointLoad where
  value_kN : ℚ
  position_m : ℚ
deriving Repr, DecidableEq

/-- Uniformly distributed load between `start_m` and `end_m`
(core/loads.py, `UDL`); `intensity_kN_per_m` negative for downward. -/
structure UDL where
  intensity_kN_per_m : ℚ
  start_m : ℚ
  end_m : ℚ
deriving Repr, DecidableEq

/-- A single load case with partial factor `gamma` (core/loads.py,
`LoadCase`). -/
structure LoadCase where
  name : String
  span_m : ℚ
  point_loads : List PointLoad := []
  udls : List UDL := []
  gamma : ℚ := 1
deriving Repr, DecidableEq

/-- Python `combination_factors.get(lc.name, 0.0)`: the dictionary is a list
of key/value pairs (keys unique in a Python dict; `find?` takes the first
match), absent keys give 0. -/
def dictGet (d : List (String × ℚ)) (k : String) : ℚ :=
  match d.find? (fun p => p.1 == k) with
  | none => 0
  | some p => p.2

/-- One iteration of the loop in `combine_load_cases` (core/loads.py lines
66-88): skip the case when its coefficient is 0.0 (or absent, via
`dictGet`), otherwise append its scaled point loads and scaled UDLs. -/
def combStep (combination_factors : List (String × ℚ))
    (acc : List PointLoad × List UDL) (lc : LoadCase) :
    List PointLoad × List UDL :=
  let psi := dictGet combination_factors lc.name
  if psi = 0 then acc
  else
    let factor := psi * lc.gamma
    (acc.1 ++ lc.point_loads.map (fun pl =>
        { value_kN := pl.value_kN * factor, position_m := pl.position_m }),
     acc.2 ++ lc.udls.map (fun w =>
        { intensity_kN_per_m := w.intensity_kN_per_m * factor,
          start_m := w.start_m, end_m := w.end_m }))

/-- Linear combination of load cases (core/loads.py, `combine_load_cases`).
Raising `ValueError` is embedded as `Except.error` with the Python message. -/
def combine_load_cases (cases : List LoadCase)
    (combination_factors : List (String × ℚ))
    (name : String := "combination") : Except String LoadCase :=
  match cases with
  | [] => .error "No load cases provided."
  | c0 :: _ =>
    let span := c0.span_m
    if cases.any (fun c => decide (|c.span_m - span| > 1/1000000)) then
      .error "All load cases must have the same span."
    else
      let combined := cases.foldl (combStep combination_factors) ([], [])
      .ok { name := name, span_m := span, point_loads := combined.1,
            udls := combined.2, gamma := 1 }

/-- Point-load contribution to the reactions (core/loads.py lines 110-116):
`RB += -P*a/L` and `RA += -P - (-P*a/L)`.  The pair is `(RA, RB)`. -/
def pointStep (L : ℚ) (r : ℚ × ℚ) (pl : PointLoad) : ℚ × ℚ :=
  let P := pl.value_kN
  let a := pl.position_m
  (r.1 + (-P - (-P * a / L)), r.2 + (-P * a / L))

/-- UDL contribution to the reactions (core/loads.py lines 119-127): the
distributed load is replaced by its resultant `W` at its centroid `x_res`. -/
def udlStep (L : ℚ) (r : ℚ × ℚ) (w : UDL) : ℚ × ℚ :=
  let Lw := w.end_m - w.start_m
  let W := w.intensity_kN_per_m * Lw
  let x_res := w.start_m + Lw / 2
  (r.1 + (-W - (-W * x_res / L)), r.2 + (-W * x_res / L))

/-- Statics for a simply supported beam (core/loads.py,
`_reactions_simply_supported`): returns `(RA_kN, RB_kN)`, upward positive.
In Python `span_m = 0` with at least one load raises `ZeroDivisionError`;
here `x / 0 = 0` — `analyzeE` recovers the Python error behaviour. -/
def _reactions_simply_supported (lc : LoadCase) : ℚ × ℚ :=
  lc.udls.foldl (udlStep lc.span_m)
    (lc.point_loads.foldl (pointStep lc.span_m) (0, 0))

/-- `np.linspace(0.0, L, n)` with the default endpoint: sample `i` is
`i * L / (n - 1)`.  For `n = 1` numpy returns `[0.0]`, which the formula
also gives (`0 * L / 0 = 0` under Lean division); for `n = 0` the list is
empty. -/
def linspace (L : ℚ) (n : ℕ) : List ℚ :=
  (List.range n).map fun i => (i : ℚ) * L / ((n : ℚ) - 1)

/-- `np.clip(v, lo, hi) = min (max v lo) hi` (numpy maps everything to `hi`
when `lo > hi`, which this expression also does). -/
def clip (v lo hi : ℚ) : ℚ := min (max v lo) hi

/-- Value at sample `x` of the first shear pass (core/loads.py lines
151-190, elementwise over the arrays): reactions, then masked point loads,
then the first UDL attempt — `V[mask1] += w*clip(x-a, 0, b-a)` for
`x ≥ a` and `V[mask2] += w*(Lw - length_active)` for `x ≥ b` (the fancy
index `length_active[mask2[mask1]]` realigns `length_active` to the
positions with `x ≥ b`).  The `V += RB * 0.0` of line 158 is a no-op.
Both arrays of this pass are thrown away by the reset of lines 193-194.

This function gives the VALUES of the pass in the case where line 188 does
not raise: when `start ≤ end` (so `mask2 ⊆ mask1`) the fancy index aligns
`length_active[mask2[mask1]]` elementwise with `V[mask2]` and the
expression below is the per-element meaning.  When `start > end` the two
boolean selections can have different cardinalities and line 188 raises a
numpy broadcast `ValueError` instead of computing anything; that error
path is modelled separately by `udlBroadcastError` and `analyzeE`, not
here. -/
def firstPassV (lc : LoadCase) (RA : ℚ) (x : ℚ) : ℚ :=
  let v₁ := lc.point_loads.foldl
    (fun v pl => if pl.position_m ≤ x then v + pl.value_kN else v) RA
  lc.udls.foldl (fun v w =>
    let la := clip (x - w.start_m) 0 (w.end_m - w.start_m)
    let v₂ := if w.start_m ≤ x then v + w.intensity_kN_per_m * la else v
    if w.end_m ≤ x then
      v₂ + w.intensity_kN_per_m * ((w.end_m - w.start_m) - la)
    else v₂) v₁

/-- Value at sample `x` of the first moment pass (core/loads.py lines
151-190, elementwise); discarded like `firstPassV`. -/
def firstPassM (lc : LoadCase) (RA : ℚ) (x : ℚ) : ℚ :=
  let m₁ := lc.point_loads.foldl
    (fun m pl =>
      if pl.position_m ≤ x then m + pl.value_kN * (x - pl.position_m) else m)
    (RA * x)
  lc.udls.foldl (fun m w =>
    if w.start_m ≤ x then
      m + w.intensity_kN_per_m * (1/2)
          * (clip (x - w.start_m) 0 (w.end_m - w.start_m)) ^ 2
    else m) m₁

/-- The active length `l` of a UDL at sample `x` in the second, clean pass
(core/loads.py lines 216-222): `xi ≤ a` contributes nothing (the loop does
`continue`, the same as an active length of 0), `a < xi ≤ b` gives
`l = xi - a`, and `xi > b` gives `l = b - a`. -/
def udl_active_length (w : UDL) (x : ℚ) : ℚ :=
  if x ≤ w.start_m then 0
  else if x ≤ w.end_m then x - w.start_m
  else w.end_m - w.start_m

/-- Shear at sample `x` from the second pass plus the closing right
reaction (core/loads.py lines 196-229): `RA`, masked point loads
(`V[mask] += P` for `x ≥ a`), UDLs via `V[i] += w_int * l`, and
`V[mask_RB] += RB` for `x ≥ L`. -/
def V_at (lc : LoadCase) (RA RB : ℚ) (x : ℚ) : ℚ :=
  let v₁ := lc.point_loads.foldl
    (fun v pl => if pl.position_m ≤ x then v + pl.value_kN else v) RA
  let v₂ := lc.udls.foldl
    (fun v w => v + w.intensity_kN_per_m * udl_active_length w x) v₁
  if lc.span_m ≤ x then v₂ + RB else v₂

/-- Moment at sample `x` from the second pass plus the closing right
reaction (core/loads.py lines 196-230): `RA*x`, masked point loads
(`M[mask] += P*(x-a)`), UDLs via `M[i] += w_int * 0.5 * l**2`, and
`M[mask_RB] += RB*(x-L)` for `x ≥ L`. -/
def M_at (lc : LoadCase) (RA RB : ℚ) (x : ℚ) : ℚ :=
  let m₁ := lc.point_loads.foldl
    (fun m pl =>
      if pl.position_m ≤ x then m + pl.value_kN * (x - pl.position_m) else m)
    (RA * x)
  let m₂ := lc.udls.foldl
    (fun m w => m + w.intensity_kN_per_m * (1/2) * (udl_active_length w x) ^ 2)
    m₁
  if lc.span_m ≤ x then m₂ + RB * (x - lc.span_m) else m₂

/-- `float(np.max(np.abs(V)))` over the sample list.  All entries of the
mapped list are non-negative, so for the non-empty arrays the code produces
(`n_points ≥ 1`) the fold with base 0 equals numpy's maximum. -/
def absMax (l : List ℚ) : ℚ := (l.map (fun v => |v|)).foldl max 0

/-- The dictionary `analyze_simply_supported` returns (core/loads.py lines
232-240). -/
structure DemandResult where
  x_m : List ℚ
  V_kN : List ℚ
  M_kNm : List ℚ
  V_max_kN : ℚ
  M_max_kNm : ℚ
  RA_kN : ℚ
  RB_kN : ℚ
deriving Repr, DecidableEq

/-- Shear and moment diagrams for a simply supported beam (core/loads.py,
`analyze_simply_supported`): the value-level computation.  The source
builds a first diagram (lines 151-190), then resets `V` and `M` to zeros
(lines 193-194) and recomputes both cleanly; the first pass is bound here
and never read.  This pure function describes the returned values on the
inputs where Python returns at all; the exception paths (`ZeroDivisionError`
at span 0 with loads, the first-pass broadcast `ValueError` of line 188,
`np.max` on an empty array at `n_points = 0`) are modelled by `analyzeE`. -/
def analyze_simply_supported (lc : LoadCase) (n_points : ℕ := 201) :
    DemandResult :=
  let L := lc.span_m
  let x := linspace L n_points
  let r := _reactions_simply_supported lc
  let RA := r.1
  let RB := r.2
  let _V1 := x.map (firstPassV lc RA)
  let _M1 := x.map (firstPassM lc RA)
  let V := x.map (V_at lc RA RB)
  let M := x.map (M_at lc RA RB)
  { x_m := x, V_kN := V, M_kNm := M,
    V_max_kN := absMax V, M_max_kNm := absMax M, RA_kN := RA, RB_kN := RB }

/-- The second, direct-evaluation pass alone: reactions, then for every
sample the direct sums `V_at` / `M_at` (point-load terms, per-sample
distributed-load integration, and the right-reaction closing term at
`x ≥ span`), with no first diagram-building pass. -/
def analyzeDirect (lc : LoadCase) (n_points : ℕ := 201) : DemandResult :=
  let L := lc.span_m
  let x := linspace L n_points
  let r := _reactions_simply_supported lc
  let RA := r.1
  let RB := r.2
  let V := x.map (V_at lc RA RB)
  let M := x.map (M_at lc RA RB)
  { x_m := x, V_kN := V, M_kNm := M,
    V_max_kN := absMax V, M_max_kNm := absMax M, RA_kN := RA, RB_kN := RB }

/-- Whether line 188 of core/loads.py,
`V[mask2] += w_int * (Lw - length_active[mask2[mask1]])`, raises a numpy
broadcast `ValueError` for this UDL.  With `mask1 = x >= start` and
`mask2 = x >= end`: `length_active` has one entry per `mask1` position,
`length_active[mask2[mask1]]` keeps the entries at positions with both
`x ≥ start` and `x ≥ end` (cardinality `n12`), and `V[mask2]` selects
`n2` slots.  The in-place add succeeds when `n12 = n2` (elementwise) or
`n12 = 1` (a length-1 operand broadcasts); any other combination raises
(`n12 ≤ n2` always, since the conjunction refines `mask2`).  For
`start ≤ end` the two masks select the same positions (`n12 = n2`), so the
line never raises; only a UDL with `start > end` and a sample in
`[end, start)` can, and then only if exactly one sample is `≥ start` does
the length-1 broadcast save it. -/
def udlBroadcastError (L : ℚ) (n_points : ℕ) (w : UDL) : Bool :=
  let xs := linspace L n_points
  let n2 := (xs.filter fun x => decide (w.end_m ≤ x)).length
  let n12 := (xs.filter fun x =>
    decide (w.start_m ≤ x) && decide (w.end_m ≤ x)).length
  decide (n12 ≠ n2) && decide (n12 ≠ 1)

/-- The error behaviour of `analyze_simply_supported` as run by Python.
The source performs no input validation and defines no typed errors; its
only failures are untyped runtime errors, in the order the source hits
them: the `ZeroDivisionError` of the reaction terms `-P*a/L` / `-W*x_res/L`
when `span_m = 0` and at least one load is present (line 115/126, before
any diagram is built); the numpy broadcast `ValueError` of the discarded
first pass at line 188 when some UDL misaligns the masks
(`udlBroadcastError`; Python's message text depends on the shapes — one
representative string stands for it here); and the `ValueError` of
`np.max` over the empty samples array when `n_points = 0` (line 236).
Every other input — negative span, positions outside `[0, span]`, even
most `start ≥ end` distributed loads — returns normally. -/
def analyzeE (lc : LoadCase) (n_points : ℕ := 201) :
    Except String DemandResult :=
  if lc.span_m = 0 ∧ (lc.point_loads ≠ [] ∨ lc.udls ≠ []) then
    .error "ZeroDivisionError: float division by zero"
  else if lc.udls.any (udlBroadcastError lc.span_m n_points) then
    .error "ValueError: broadcast mismatch in the first diagram pass"
  else if n_points = 0 then
    .error "ValueError: zero-size array to reduction operation maximum"
  else
    .ok (analyze_simply_supported lc n_points)

/-- The error behaviour the second, direct-evaluation pass would have on
its own: it shares the reaction division (`ZeroDivisionError` at span 0
with loads) and the final `np.max` over the samples (`ValueError` at
`n_points = 0`), but contains no fancy indexing — its UDL loop handles any
`start`/`end` without raising. -/
def analyzeDirectE (lc : LoadCase) (n_points : ℕ := 201) :
    Except String DemandResult :=
  if lc.span_m = 0 ∧ (lc.point_loads ≠ [] ∨ lc.udls ≠ []) then
    .error "ZeroDivisionError: float division by zero"
  else if n_points = 0 then
    .error "ValueError: zero-size array to reduction operation maximum"
  else
    .ok (analyzeDirect lc n_points)

/-- The signed total applied load of a case: the sum of all point-load
magnitudes plus all distributed totals (intensity times interval length). -/
def totalLoad (lc : LoadCase) : ℚ :=
  (lc.point_loads.map (fun pl => pl.value_kN)).sum
    + (lc.udls.map (fun w => w.intensity_kN_per_m * (w.end_m - w.start_m))).sum

lemma foldl_pointStep_sum (L : ℚ) (pls : List PointLoad) :
    ∀ init : ℚ × ℚ,
      (pls.foldl (pointStep L) init).1 + (pls.foldl (pointStep L) init).2
        = init.1 + init.2 - (pls.map (fun pl => pl.value_kN)).sum := by
  induction pls with
  | nil => intro init; simp
  | cons pl t ih =>
    intro init
    simp only [List.foldl_cons, List.map_cons, List.sum_cons]
    rw [ih]
    simp only [pointStep]
    ring

lemma foldl_udlStep_sum (L : ℚ) (ws : List UDL) :
    ∀ init : ℚ × ℚ,
      (ws.foldl (udlStep L) init).1 + (ws.foldl (udlStep L) init).2
        = init.1 + init.2
          - (ws.map (fun w => w.intensity_kN_per_m * (w.end_m - w.start_m))).sum := by
  induction ws with
  | nil => intro init; simp
  | cons w t ih =>
    intro init
    simp only [List.foldl_cons, List.map_cons, List.sum_cons]
    rw [ih]
    simp only [udlStep]
    ring

/-- C1: for every load case on a simply supported span, the reactions of
`_reactions_simply_supported` satisfy
`left_reaction + right_reaction + total_applied_load = 0` — exactly, not
only within tolerance: the `-P*a/L` terms cancel between the two supports,
so each load contributes exactly `-P` (resp. `-W`) to `RA + RB`. -/
theorem c1_reactions_equilibrium (lc : LoadCase) (h : 0 < lc.span_m) :
    (_reactions_simply_supported lc).1 + (_reactions_simply_supported lc).2
      + totalLoad lc = 0 := by
  unfold _reactions_simply_supported totalLoad
  rw [foldl_udlStep_sum, foldl_pointStep_sum]
  ring

/-- Witness for C1 at the concrete case of `main_beam_demo.py` (span 6 m,
UDL −15 kN/m on [0, 6], point load −30 kN at midspan). -/
theorem c1_reactions_equilibrium_witness :
    (0 : ℚ) < 6 ∧
      ((_reactions_simply_supported
          { name := "ULS", span_m := 6,
            point_loads := [{ value_kN := -30, position_m := 3 }],
            udls := [{ intensity_kN_per_m := -15, start_m := 0, end_m := 6 }] }).1
        + (_reactions_simply_supported
          { name := "ULS", span_m := 6,
            point_loads := [{ value_kN := -30, position_m := 3 }],
            udls := [{ intensity_kN_per_m := -15, start_m := 0, end_m := 6 }] }).2
        + totalLoad
          { name := "ULS", span_m := 6,
            point_loads := [{ value_kN := -30, position_m := 3 }],
            udls := [{ intensity_kN_per_m := -15, start_m := 0, end_m := 6 }] } = 0) :=
  ⟨by norm_num, c1_reactions_equilibrium _ (by norm_num)⟩

lemma udlBroadcastError_eq_false (L : ℚ) (n_points : ℕ) (w : UDL)
    (h : w.start_m ≤ w.end_m) : udlBroadcastError L n_points w = false := by
  simp only [udlBroadcastError]
  have hfil : (linspace L n_points).filter
        (fun x => decide (w.start_m ≤ x) && decide (w.end_m ≤ x))
      = (linspace L n_points).filter (fun x => decide (w.end_m ≤ x)) := by
    apply List.filter_congr
    intro x hx
    by_cases hb : w.end_m ≤ x
    · simp [hb, le_trans h hb]
    · simp [hb]
  rw [hfil]
  simp

/-- The C10 degenerate input: a distributed load with start > end over
a positive span.  At 4 samples `x = [0, 1, 2, 3]` the first pass has
`n12 = 2` entries with `x ≥ 2` but `n2 = 4` slots with `x ≥ 0`, so
line 188 raises a broadcast `ValueError` in Python, while the second pass
alone would return normally. -/
def lcBroadcast : LoadCase :=
  { name := "bc", span_m := 3,
    udls := [{ intensity_kN_per_m := -2, start_m := 2, end_m := 0 }] }

/-- The failing input for C2: span 2 m, one UDL of −1 kN/m over [0, 1]
(an interval ending strictly before the span end), three samples. -/
def lcBug : LoadCase :=
  { name := "bug", span_m := 2,
    udls := [{ intensity_kN_per_m := -1, start_m := 0, end_m := 1 }] }

/-- C2 fails on the code: at the failing input the sampled moments are
`[0, 1/4, 1]` at `x = [0, 1, 2]` — the moment at `x = span` is 1 kNm, not
0.  The second pass adds the frozen term `w·0.5·(b−a)²` for every sample
beyond a UDL's end instead of the growing lever-arm term
`w·(b−a)·(x−(a+b)/2)`, so the diagram only closes when every UDL ends at
the span end. -/
theorem c2_moment_endpoint_eval :
    (analyze_simply_supported lcBug 3).x_m = [0, 1, 2] ∧
      (analyze_simply_supported lcBug 3).M_kNm = [0, 1/4, 1] := by
  constructor
  · norm_num [analyze_simply_supported, lcBug, linspace, List.range_succ]
  · norm_num [analyze_simply_supported, lcBug, linspace, List.range_succ,
      _reactions_simply_supported, udlStep, M_at, udl_active_length]

/-- The concrete invalid input for C3: span −1 ≤ 0, a point load outside
[0, span], and a distributed load with start ≥ end. -/
def badCase : LoadCase :=
  { name := "bad", span_m := -1,
    point_loads := [{ value_kN := -5, position_m := 9 }],
    udls := [{ intensity_kN_per_m := -2, start_m := 3, end_m := 1 }] }

/-- C3 fails on the code: on a case with span ≤ 0, a distributed load with
start ≥ end and a position outside [0, span] all at once,
`analyze_simply_supported` raises nothing and returns a computed result —
the source contains no validation and no `InvalidSpanError` or
`InvalidLoadGeometryError` at all.  (At this input all samples lie below
the UDL interval, so the first pass's fancy indexing aligns and does not
raise either.) -/
theorem c3_counterexample :
    badCase.span_m ≤ 0 ∧
      analyzeE badCase 3 = .ok (analyze_simply_supported badCase 3) := by
  have h2 : badCase.udls.any (udlBroadcastError badCase.span_m 3)
      = false := by
    simp only [badCase, List.any_cons, List.any_nil, Bool.or_false]
    norm_num [udlBroadcastError, linspace, List.range_succ, List.filter_cons,
      List.filter_nil]
  constructor
  · norm_num [badCase]
  · rw [analyzeE, if_neg (by norm_num [badCase]), if_neg (by simp [h2]),
      if_neg (by norm_num)]

/-- C3 amended: `analyze_simply_supported` performs no input validation
and defines no typed errors — every call either returns a fully computed
result (as the counterexample shows it does even for a case that violates
all three validity conditions at once) or dies with one of three untyped
runtime errors on degenerate inputs: `ZeroDivisionError` when span = 0
with at least one load, the first-pass numpy broadcast `ValueError` when a
start > end distributed load misaligns the sample masks, and the `np.max`
`ValueError` when the sample count is 0.  No `InvalidSpanError` or
`InvalidLoadGeometryError` exists anywhere. -/
theorem c3_only_untyped_runtime_errors (lc : LoadCase) (n_points : ℕ) :
    analyzeE lc n_points = .ok (analyze_simply_supported lc n_points)
      ∨ analyzeE lc n_points
          = .error "ZeroDivisionError: float division by zero"
      ∨ analyzeE lc n_points
          = .error "ValueError: broadcast mismatch in the first diagram pass"
      ∨ analyzeE lc n_points
          = .error "ValueError: zero-size array to reduction operation maximum" := by
  rw [analyzeE]
  split_ifs <;> simp

/-- Scenario A of the spec: span 6 m, UDL −15 kN/m over [0, 6], point load
−30 kN at 3 m (the load case of `main_beam_demo.py`). -/
def scenarioA : LoadCase :=
  { name := "A", span_m := 6,
    point_loads := [{ value_kN := -30, position_m := 3 }],
    udls := [{ intensity_kN_per_m := -15, start_m := 0, end_m := 6 }] }

/-- C4 fails on the code: for Scenario A the computed max |moment| is
112.5 kNm (= 67.5 from the UDL + 45 from the point load), not ≈ 90 kNm —
off by 22.5. -/
theorem c4_counterexample :
    |(analyze_simply_supported scenarioA 5).M_max_kNm - 90| > 20 := by
  norm_num [analyze_simply_supported, scenarioA, linspace, List.range_succ,
    _reactions_simply_supported, pointStep, udlStep, M_at, V_at,
    udl_active_length, absMax, abs, max_def]

/-- C4 amended: for Scenario A, `analyze_simply_supported` (here sampled at
5 evenly spaced points, which include the midspan maximum) returns
max |moment| = 112.5 kNm and reactions RA = RB = 60 kN. -/
theorem c4_scenarioA_values :
    (analyze_simply_supported scenarioA 5).M_max_kNm = 225/2 ∧
      (analyze_simply_supported scenarioA 5).RA_kN = 60 ∧
      (analyze_simply_supported scenarioA 5).RB_kN = 60 := by
  refine ⟨?_, ?_, ?_⟩ <;>
    norm_num [analyze_simply_supported, scenarioA, linspace, List.range_succ,
      _reactions_simply_supported, pointStep, udlStep, M_at, V_at,
      udl_active_length, absMax, abs, max_def]

/-- C10 fails on the code as stated: at `lcBroadcast` (span 3, UDL −2 kN/m
with start 2 > end 0) and 4 samples, the whole analysis fails — from the
FIRST pass's fancy-index line 188 — although the second direct-evaluation
pass alone returns a normal result, so the result is not independent of
the first pass for every load case and sample count. -/
theorem c10_counterexample :
    (analyzeE lcBroadcast 4).isOk = false ∧
      analyzeDirectE lcBroadcast 4 = .ok (analyzeDirect lcBroadcast 4) := by
  have hany : lcBroadcast.udls.any (udlBroadcastError lcBroadcast.span_m 4)
      = true := by
    simp only [lcBroadcast, List.any_cons, List.any_nil, Bool.or_false]
    norm_num [udlBroadcastError, linspace, List.range_succ, List.filter_cons,
      List.filter_nil]
  constructor
  · rw [analyzeE, if_neg (by norm_num [lcBroadcast]), if_pos hany]
    rfl
  · rw [analyzeDirectE, if_neg (by norm_num [lcBroadcast]),
      if_neg (by norm_num)]

/-- C10 amended: for every load case whose distributed loads all satisfy
start ≤ end (the data model's own well-formedness, under which the first
pass cannot raise) and every sample count, the result of
`analyze_simply_supported` is independent of its first diagram-building
pass: `V` and `M` are reset to zero before the second pass, so both the
error behaviour and the returned record (diagrams, max |V|, max |M|,
reactions) are exactly those of the second direct-evaluation pass alone.
With a start > end distributed load the first pass itself can raise a
numpy broadcast `ValueError` that the second pass alone would not. -/
theorem c10_first_pass_discarded_wf (lc : LoadCase) (n_points : ℕ)
    (h : ∀ w ∈ lc.udls, w.start_m ≤ w.end_m) :
    analyzeE lc n_points = analyzeDirectE lc n_points ∧
      analyze_simply_supported lc n_points = analyzeDirect lc n_points := by
  refine ⟨?_, rfl⟩
  have hb : lc.udls.any (udlBroadcastError lc.span_m n_points) = false := by
    rw [List.any_eq_false]
    intro w hw
    simp [udlBroadcastError_eq_false lc.span_m n_points w (h w hw)]
  rw [analyzeE, analyzeDirectE, hb]
  simp only [Bool.false_eq_true, if_false]
  rfl

/-- Witness for C10 at the well-formed Scenario A case. -/
theorem c10_first_pass_discarded_wf_witness :
    analyzeE scenarioA 5 = analyzeDirectE scenarioA 5 ∧
      analyze_simply_supported scenarioA 5 = analyzeDirect scenarioA 5 :=
  c10_first_pass_discarded_wf scenarioA 5 (by norm_num [scenarioA])

/-- Spec-side reading of the combination rule (spec 4.2): a case whose name
is absent from the coefficients, or maps to exactly 0.0, is excluded;
otherwise its coefficient is returned. -/
def caseFactorIncluded (combination_factors : List (String × ℚ))
    (nm : String) : Option ℚ :=
  match combination_factors.find? (fun p => p.1 == nm) with
  | none => none
  | some p => if p.2 = 0 then none else some p.2

/-- Spec-side point-load contribution of one case: nothing when excluded,
otherwise each magnitude scaled by coefficient × partial factor with the
position unchanged. -/
def specPointContribs (combination_factors : List (String × ℚ))
    (lc : LoadCase) : List PointLoad :=
  match caseFactorIncluded combination_factors lc.name with
  | none => []
  | some c => lc.point_loads.map fun pl =>
      { value_kN := pl.value_kN * (c * lc.gamma), position_m := pl.position_m }

/-- Spec-side distributed-load contribution of one case. -/
def specUdlContribs (combination_factors : List (String × ℚ))
    (lc : LoadCase) : List UDL :=
  match caseFactorIncluded combination_factors lc.name with
  | none => []
  | some c => lc.udls.map fun w =>
      { intensity_kN_per_m := w.intensity_kN_per_m * (c * lc.gamma),
        start_m := w.start_m, end_m := w.end_m }

/-- Spec-side combined point loads: per input case in order, its scaled
point loads. -/
def specCombinedPoints (cases : List LoadCase)
    (combination_factors : List (String × ℚ)) : List PointLoad :=
  (cases.map (specPointContribs combination_factors)).flatten

/-- Spec-side combined distributed loads. -/
def specCombinedUdls (cases : List LoadCase)
    (combination_factors : List (String × ℚ)) : List UDL :=
  (cases.map (specUdlContribs combination_factors)).flatten

lemma combStep_fst (fs : List (String × ℚ)) (acc : List PointLoad × List UDL)
    (lc : LoadCase) : (combStep fs acc lc).1 = acc.1 ++ specPointContribs fs lc := by
  unfold combStep specPointContribs caseFactorIncluded dictGet
  cases h : fs.find? (fun p => p.1 == lc.name) with
  | none => simp [h]
  | some p =>
    by_cases hp : p.2 = 0
    · simp [h, hp]
    · simp [h, hp]

lemma combStep_snd (fs : List (String × ℚ)) (acc : List PointLoad × List UDL)
    (lc : LoadCase) : (combStep fs acc lc).2 = acc.2 ++ specUdlContribs fs lc := by
  unfold combStep specUdlContribs caseFactorIncluded dictGet
  cases h : fs.find? (fun p => p.1 == lc.name) with
  | none => simp [h]
  | some p =>
    by_cases hp : p.2 = 0
    · simp [h, hp]
    · simp [h, hp]

lemma foldl_combStep_fst (fs : List (String × ℚ)) :
    ∀ (cs : List LoadCase) (acc : List PointLoad × List UDL),
      (cs.foldl (combStep fs) acc).1 = acc.1 ++ specCombinedPoints cs fs := by
  intro cs
  induction cs with
  | nil => intro acc; simp [specCombinedPoints]
  | cons c t ih =>
    intro acc
    simp only [List.foldl_cons, specCombinedPoints, List.map_cons,
      List.flatten_cons]
    rw [ih, combStep_fst, List.append_assoc]
    rfl

lemma foldl_combStep_snd (fs : List (String × ℚ)) :
    ∀ (cs : List LoadCase) (acc : List PointLoad × List UDL),
      (cs.foldl (combStep fs) acc).2 = acc.2 ++ specCombinedUdls cs fs := by
  intro cs
  induction cs with
  | nil => intro acc; simp [specCombinedUdls]
  | cons c t ih =>
    intro acc
    simp only [List.foldl_cons, specCombinedUdls, List.map_cons,
      List.flatten_cons]
    rw [ih, combStep_snd, List.append_assoc]
    rfl

/-- Case G of Scenario B: UDL −10 kN/m over the 5 m span, factor 1.0. -/
def caseG : LoadCase :=
  { name := "G", span_m := 5,
    udls := [{ intensity_kN_per_m := -10, start_m := 0, end_m := 5 }] }

/-- Case Q of Scenario B: point load −20 kN at midspan, factor 1.0. -/
def caseQ : LoadCase :=
  { name := "Q", span_m := 5,
    point_loads := [{ value_kN := -20, position_m := 5/2 }] }

/-- Scenario B coefficients {G: 1.35, Q: 1.5}. -/
def factorsB : List (String × ℚ) := [("G", 27/20), ("Q", 3/2)]

/-- The expected Scenario B combination: UDL −13.5 kN/m, point load
−30 kN at midspan, partial factor 1.0. -/
def combinedB : LoadCase :=
  { name := "combination", span_m := 5,
    point_loads := [{ value_kN := -30, position_m := 5/2 }],
    udls := [{ intensity_kN_per_m := -27/2, start_m := 0, end_m := 5 }],
    gamma := 1 }

lemma dictGet_factorsB_G : dictGet factorsB "G" = 27/20 := by
  rw [factorsB, dictGet, List.find?_cons_of_pos _ (by decide)]

lemma dictGet_factorsB_Q : dictGet factorsB "Q" = 3/2 := by
  rw [factorsB, dictGet, List.find?_cons_of_neg _ (by decide),
    List.find?_cons_of_pos _ (by decide)]

lemma scenarioB_eval :
    combine_load_cases [caseG, caseQ] factorsB "combination"
      = .ok combinedB := by
  rw [combine_load_cases]
  rw [if_neg (by norm_num [caseG, caseQ, List.any_cons, List.any_nil])]
  simp only [List.foldl_cons, List.foldl_nil, combStep, caseG, caseQ,
    dictGet_factorsB_G, dictGet_factorsB_Q]
  norm_num [combinedB]

/-- C5: whenever `combine_load_cases` succeeds, the output carries partial
factor 1.0 and its loads are exactly the spec-side combination — cases
absent from the coefficients or mapped to exactly 0.0 contribute nothing,
every included load is scaled by coefficient × partial factor with
positions and intervals unchanged; and on Scenario B (G: UDL −10 kN/m
factor 1.0, Q: point −20 kN at midspan factor 1.0, coefficients
{G: 1.35, Q: 1.5}, span 5 m) the result is the combined UDL −13.5 kN/m
with the combined point load −30 kN. -/
theorem c5_combination_scaling (cases : List LoadCase)
    (fs : List (String × ℚ)) (nm : String) (res : LoadCase)
    (h : combine_load_cases cases fs nm = .ok res) :
    res.gamma = 1 ∧ res.point_loads = specCombinedPoints cases fs ∧
      res.udls = specCombinedUdls cases fs ∧
      combine_load_cases [caseG, caseQ] factorsB "combination"
        = .ok combinedB := by
  refine ⟨?_, ?_, ?_, scenarioB_eval⟩
  case _ =>
    cases cases with
    | nil => simp [combine_load_cases] at h
    | cons c0 rest =>
      rw [combine_load_cases] at h
      split at h
      · exact absurd h (by simp)
      · rw [Except.ok.injEq] at h
        rw [← h]
  case _ =>
    cases cases with
    | nil => simp [combine_load_cases] at h
    | cons c0 rest =>
      rw [combine_load_cases] at h
      split at h
      · exact absurd h (by simp)
      · rw [Except.ok.injEq] at h
        rw [← h]
        exact foldl_combStep_fst fs (c0 :: rest) ([], [])
  case _ =>
    cases cases with
    | nil => simp [combine_load_cases] at h
    | cons c0 rest =>
      rw [combine_load_cases] at h
      split at h
      · exact absurd h (by simp)
      · rw [Except.ok.injEq] at h
        rw [← h]
        exact foldl_combStep_snd fs (c0 :: rest) ([], [])

/-- Witness for C5 at the Scenario B input. -/
theorem c5_combination_scaling_witness :
    combinedB.gamma = 1 ∧
      combinedB.point_loads = specCombinedPoints [caseG, caseQ] factorsB ∧
      combinedB.udls = specCombinedUdls [caseG, caseQ] factorsB ∧
      combine_load_cases [caseG, caseQ] factorsB "combination"
        = .ok combinedB :=
  c5_combination_scaling [caseG, caseQ] factorsB "combination" combinedB
    scenarioB_eval

/-- C6 counterexample cases: three spans each within 1e-6 of the first,
but the second and third 1.8e-6 apart from each other. -/
def caseNearA : LoadCase := { name := "a", span_m := 5 }

/-- Second near-miss case, span 5 + 9e-7. -/
def caseNearB : LoadCase := { name := "b", span_m := 5 + 9/10000000 }

/-- Third near-miss case, span 5 − 9e-7. -/
def caseNearC : LoadCase := { name := "c", span_m := 5 - 9/10000000 }

/-- C6 fails on the code as stated: the source compares every span only to
the first case, not pairwise, so a trio whose second and third spans differ
by 1.8e-6 > 1e-6 is combined without error. -/
theorem c6_counterexample :
    |caseNearB.span_m - caseNearC.span_m| > 1/1000000 ∧
      (combine_load_cases [caseNearA, caseNearB, caseNearC] [] "x").isOk
        = true := by
  constructor
  · norm_num [caseNearB, caseNearC, abs, max_def]
  · rw [combine_load_cases]
    rw [if_neg (by norm_num [caseNearA, caseNearB, caseNearC, List.any_cons,
      List.any_nil, abs, max_def])]
    rfl

/-- C6 amended: `combine_load_cases` fails with the empty-input
`ValueError` when the collection of cases is empty, and with the
span-mismatch `ValueError` when any case differs from the FIRST case by
more than 1e-6 (not when any two cases differ pairwise); differing spans
are a hard error, never silently averaged. -/
theorem c6_empty_and_span_mismatch :
    (∀ (fs : List (String × ℚ)) (nm : String),
        combine_load_cases [] fs nm = .error "No load cases provided.") ∧
      (∀ (c0 : LoadCase) (rest : List LoadCase) (fs : List (String × ℚ))
          (nm : String),
        ((c0 :: rest).any fun c =>
            decide (|c.span_m - c0.span_m| > 1/1000000)) = true →
          combine_load_cases (c0 :: rest) fs nm
            = .error "All load cases must have the same span.") := by
  constructor
  · intro fs nm; rfl
  · intro c0 rest fs nm hmis
    rw [combine_load_cases, if_pos hmis]

/-- A case whose partial factor is not 1: the identity law fails on it. -/
def caseGamma2 : LoadCase :=
  { name := "g2", span_m := 4,
    point_loads := [{ value_kN := -1, position_m := 2 }], gamma := 2 }

lemma dictGet_self (nm : String) (v : ℚ) : dictGet [(nm, v)] nm = v := by
  rw [dictGet, List.find?_cons_of_pos _ (by simp)]

/-- C7 fails on the code as stated: combining the single case `caseGamma2`
(partial factor 2) with coefficient 1.0 scales its point load by
1.0 × 2 = 2, so the output loads are NOT unchanged. -/
theorem c7_counterexample :
    combine_load_cases [caseGamma2] [("g2", 1)] "combination"
        = .ok { name := "combination", span_m := 4,
                point_loads := [{ value_kN := -2, position_m := 2 }],
                udls := [], gamma := 1 } ∧
      caseGamma2.point_loads ≠ [{ value_kN := -2, position_m := 2 }] := by
  constructor
  · rw [combine_load_cases]
    rw [if_neg (by norm_num [caseGamma2, List.any_cons, List.any_nil])]
    simp only [List.foldl_cons, List.foldl_nil, combStep, caseGamma2,
      dictGet_self]
    norm_num
  · norm_num [caseGamma2, PointLoad.mk.injEq]

lemma map_scalePoint_one (pls : List PointLoad) :
    (pls.map fun pl =>
      PointLoad.mk (pl.value_kN * 1) pl.position_m) = pls := by
  induction pls with
  | nil => rfl
  | cons pl t ih => simp [ih]

lemma map_scaleUdl_one (ws : List UDL) :
    (ws.map fun w =>
      UDL.mk (w.intensity_kN_per_m * 1) w.start_m w.end_m) = ws := by
  induction ws with
  | nil => rfl
  | cons w t ih => simp [ih]

/-- C7 amended: for every load case whose own partial factor is 1.0,
combining the single-element collection with coefficient 1.0 for its name
reproduces its point and distributed loads unchanged.  (Because the code
scales by coefficient × gamma, a case with gamma ≠ 1 comes out scaled by
gamma.) -/
theorem c7_identity_for_unit_gamma (c : LoadCase) (nm : String)
    (h : c.gamma = 1) :
    combine_load_cases [c] [(c.name, 1)] nm
      = .ok { name := nm, span_m := c.span_m, point_loads := c.point_loads,
              udls := c.udls, gamma := 1 } := by
  rw [combine_load_cases]
  rw [if_neg (by norm_num [List.any_cons, List.any_nil])]
  simp only [List.foldl_cons, List.foldl_nil, combStep, dictGet_self, h]
  norm_num [map_scalePoint_one, map_scaleUdl_one]

/-- Witness for C7 at a concrete unit-factor case. -/
theorem c7_identity_for_unit_gamma_witness :
    combine_load_cases
        [{ name := "u", span_m := 3,
           point_loads := [{ value_kN := -7, position_m := 1 }],
           udls := [{ intensity_kN_per_m := -2, start_m := 0, end_m := 3 }],
           gamma := 1 }]
        [("u", 1)] "combination"
      = .ok { name := "combination", span_m := 3,
              point_loads := [{ value_kN := -7, position_m := 1 }],
              udls := [{ intensity_kN_per_m := -2, start_m := 0, end_m := 3 }],
              gamma := 1 } :=
  c7_identity_for_unit_gamma
    { name := "u", span_m := 3,
      point_loads := [{ value_kN := -7, position_m := 1 }],
      udls := [{ intensity_kN_per_m := -2, start_m := 0, end_m := 3 }],
      gamma := 1 } "combination" rfl

/-- Young's modulus of steel in MPa (core/deflection.py, `E_STEEL_MPA`). -/
def E_STEEL_MPA : ℚ := 210000

/-- Maximum deflection in mm for a simply supported beam
(core/deflection.py, `max_deflection_simply_supported`): superposition of
the full-span-UDL and midspan-point-load closed forms, with the source's
unit conversions and its zero-load guards. -/
def max_deflection_simply_supported (span_m I_cm4 q_kN_per_m P_kN : ℚ) : ℚ :=
  let L_mm := span_m * 1000
  let I_mm4 := I_cm4 * 10000
  let q_N_per_mm := q_kN_per_m
  let P_N := P_kN * 1000
  let w_q := if q_kN_per_m ≠ 0
    then 5 * q_N_per_mm * L_mm ^ 4 / (384 * E_STEEL_MPA * I_mm4) else 0
  let w_P := if P_kN ≠ 0
    then P_N * L_mm ^ 3 / (48 * E_STEEL_MPA * I_mm4) else 0
  w_q + w_P

/-- One row of the materials table.  The demo reads the columns of
core/co2_calc.py (`profile`, `A_cm2`, `rho_kg_per_m3`, `co2_kg_per_kg`)
and, through `summary["I_cm4"]` and `beam_M_Rd_kNm` (the latter defined in
Version1/core/co2_calc.py), also `I_cm4` and `W_cm3`. -/
structure Row where
  profile : String
  A_cm2 : ℚ
  rho_kg_per_m3 : ℚ
  co2_kg_per_kg : ℚ
  W_cm3 : ℚ
  I_cm4 : ℚ
deriving Repr, DecidableEq

/-- `MaterialsDB.get_section_row` (core/co2_calc.py lines 37-41): the first
row whose profile matches, or a raised `KeyError` — embedded as
`Except.error` (the Python message also quotes the csv path). -/
def get_section_row (db : List Row) (profile : String) : Except String Row :=
  match db.find? (fun r => r.profile == profile) with
  | none => .error ("KeyError: profile not found: " ++ profile)
  | some r => .ok r

/-- `MaterialsDB.beam_mass_kg` (core/co2_calc.py lines 43-56):
`rho * (A_cm2 * 1e-4) * length`. -/
def beam_mass_kg (row : Row) (length_m : ℚ) : ℚ :=
  let A_m2 := row.A_cm2 * (1/10000)
  let volume_m3 := A_m2 * length_m
  row.rho_kg_per_m3 * volume_m3

/-- `MaterialsDB.beam_co2_kg` (core/co2_calc.py lines 58-66):
mass times emission factor. -/
def beam_co2_kg (row : Row) (length_m : ℚ) : ℚ :=
  beam_mass_kg row length_m * row.co2_kg_per_kg

/-- `MaterialsDB.beam_M_Rd_kNm` (Version1/core/co2_calc.py lines 44-62;
`main_beam_demo.py` calls it on the database object):
`W_cm3 * fy_MPa / (gamma_M0 * 1000)`. -/
def beam_M_Rd_kNm (row : Row) (fy_MPa gamma_M0 : ℚ) : ℚ :=
  row.W_cm3 * fy_MPa / (gamma_M0 * 1000)

/-- The problem constants of `main_beam_demo.py` (lines 12-22, 52-54). -/
def span : ℚ := 6

/-- ULS distributed load magnitude, kN/m. -/
def q_ULS : ℚ := 15

/-- ULS point load magnitude, kN. -/
def P_ULS : ℚ := 30

/-- SLS distributed load magnitude, kN/m. -/
def q_SLS : ℚ := 15

/-- SLS point load magnitude, kN. -/
def P_SLS : ℚ := 30

/-- Yield strength, MPa. -/
def fy_MPa : ℚ := 355

/-- Material partial factor. -/
def gamma_M0 : ℚ := 1

/-- Deflection limit, mm: `span * 1000 / 250`. -/
def deflection_limit_mm : ℚ := span * 1000 / 250

/-- The ULS load case of `main_beam_demo.py` lines 27-33. -/
def lcULS : LoadCase :=
  { name := "ULS", span_m := span,
    point_loads := [{ value_kN := -P_ULS, position_m := span / 2 }],
    udls := [{ intensity_kN_per_m := -q_ULS, start_m := 0, end_m := span }] }

/-- `M_Ed = res["M_max_kNm"]` of `main_beam_demo.py` line 36 (default
201 sample points). -/
def M_Ed_main : ℚ := (analyze_simply_supported lcULS 201).M_max_kNm

/-- One entry of the `candidates` list built by `main_beam_demo.py`
lines 78-88. -/
structure Candidate where
  profile : String
  M_Rd_kNm : ℚ
  utilization : ℚ
  w_max_mm : ℚ
  deflection_ok : Bool
  mass_kg : ℚ
  co2_kg : ℚ
deriving Repr, DecidableEq

/-- The body of the candidate loop (`main_beam_demo.py` lines 60-88) for
one resolved row: capacity, utilization, deflection check, mass and CO2.
`M_Ed` is the demand computed once before the loop. -/
def mkCandidate (M_Ed : ℚ) (row : Row) : Candidate :=
  let M_Rd := beam_M_Rd_kNm row fy_MPa gamma_M0
  let w_max_mm := max_deflection_simply_supported span row.I_cm4 q_SLS P_SLS
  { profile := row.profile,
    M_Rd_kNm := M_Rd,
    utilization := M_Ed / M_Rd,
    w_max_mm := w_max_mm,
    deflection_ok := decide (w_max_mm ≤ deflection_limit_mm),
    mass_kg := beam_mass_kg row span,
    co2_kg := beam_co2_kg row span }

/-- The candidate loop of `main_beam_demo.py` lines 60-88: sequential, with
NO try/except around the per-candidate body, so the `KeyError` of a failed
`get_section_row` lookup propagates out of `main` and no candidate list is
produced at all. -/
def evalCandidates (db : List Row) (M_Ed : ℚ) :
    List String → Except String (List Candidate)
  | [] => .ok []
  | prof :: rest =>
    match get_section_row db prof with
    | .error e => .error e
    | .ok row =>
      match evalCandidates db M_Ed rest with
      | .error e => .error e
      | .ok cs => .ok (mkCandidate M_Ed row :: cs)

/-- The filter of `main_beam_demo.py` lines 93-96:
`c["utilization"] <= 1.0 and c["deflection_ok"]`. -/
def conformsB (c : Candidate) : Bool :=
  decide (c.utilization ≤ 1) && c.deflection_ok

/-- Stable insertion into a CO2-sorted list: an element already present
stays in front of the inserted one when their CO2 values tie, matching
the stability guarantee of Python `sorted`. -/
def insertByCo2 (c : Candidate) : List Candidate → List Candidate
  | [] => [c]
  | d :: ds => if d.co2_kg < c.co2_kg then d :: insertByCo2 c ds
    else c :: d :: ds

/-- `sorted(passing, key=lambda c: c["co2_kg"])` of `main_beam_demo.py`
line 98: a stable ascending sort by embodied CO2 (Python `sorted` is
guaranteed stable). -/
def sortByCo2 : List Candidate → List Candidate
  | [] => []
  | c :: cs => insertByCo2 c (sortByCo2 cs)

/-- The decision of `main_beam_demo.py` lines 93-122: filter, stable-sort
by CO2, and take the first element; `none` is the "no section satisfies
bending + deflection requirements" branch (a printed outcome, not a raised
error). -/
def selectBest (candidates : List Candidate) : Option Candidate :=
  let passing := candidates.filter conformsB
  let passing_sorted := sortByCo2 passing
  passing_sorted.head?

/-- Spec-side characterization of the selection: the first, in original
order, of the conforming candidates whose embodied CO2 is minimal among
them. -/
def firstMinCo2 (l : List Candidate) : Option Candidate :=
  (l.filter fun c => l.all fun d => decide (c.co2_kg ≤ d.co2_kg)).head?

lemma insertByCo2_ne_nil (c : Candidate) (l : List Candidate) :
    insertByCo2 c l ≠ [] := by
  cases l with
  | nil => simp [insertByCo2]
  | cons d ds =>
    simp only [insertByCo2]
    split <;> simp

lemma sortByCo2_eq_nil_iff (l : List Candidate) :
    sortByCo2 l = [] ↔ l = [] := by
  cases l with
  | nil => simp [sortByCo2]
  | cons c cs => simp [sortByCo2, insertByCo2_ne_nil]

lemma mem_of_head?_eq_some' {α : Type} {l : List α} {a : α}
    (h : l.head? = some a) : a ∈ l := by
  cases l with
  | nil => simp at h
  | cons b t =>
    simp only [List.head?_cons, Option.some.injEq] at h
    simp [h]

lemma head?_filter_stronger {α : Type} (p q : α → Bool) (l : List α) (a : α)
    (h : (l.filter p).head? = some a) (hqa : q a = true)
    (himp : ∀ x, q x = true → p x = true) :
    (l.filter q).head? = some a := by
  induction l with
  | nil => simp [List.filter_nil] at h
  | cons x xs ih =>
    rw [List.filter_cons] at h ⊢
    by_cases hp : p x = true
    · rw [if_pos hp] at h
      simp only [List.head?_cons, Option.some.injEq] at h
      subst h
      rw [if_pos hqa, List.head?_cons]
    · rw [if_neg hp] at h
      rw [if_neg (fun hqx => hp (himp x hqx))]
      exact ih h

lemma sortByCo2_head?_eq_firstMin (l : List Candidate) :
    (sortByCo2 l).head? = firstMinCo2 l := by
  induction l with
  | nil => rfl
  | cons c cs ih =>
    rw [sortByCo2]
    cases hs : sortByCo2 cs with
    | nil =>
      have hcs : cs = [] := (sortByCo2_eq_nil_iff cs).1 hs
      subst hcs
      simp [insertByCo2, firstMinCo2, List.filter_cons]
    | cons d0 ds =>
      have hfm : firstMinCo2 cs = some d0 := by
        rw [← ih, hs, List.head?_cons]
      rw [firstMinCo2] at hfm
      have hd0 := mem_of_head?_eq_some' hfm
      rw [List.mem_filter] at hd0
      obtain ⟨hd0cs, hd0all⟩ := hd0
      rw [List.all_eq_true] at hd0all
      have hmin : ∀ d ∈ cs, d0.co2_kg ≤ d.co2_kg := by
        intro d hd
        have := hd0all d hd
        rwa [decide_eq_true_eq] at this
      rw [insertByCo2]
      by_cases hlt : d0.co2_kg < c.co2_kg
      · rw [if_pos hlt, firstMinCo2, List.filter_cons, if_neg ?hc,
          List.head?_cons]
        case hc =>
          intro hall
          rw [List.all_eq_true] at hall
          have := hall d0 (List.mem_cons_of_mem _ hd0cs)
          rw [decide_eq_true_eq] at this
          exact absurd this (not_le.mpr hlt)
        refine (head?_filter_stronger _ _ cs d0 hfm ?_ ?_).symm
        · rw [List.all_eq_true]
          intro d hd
          rw [decide_eq_true_eq]
          rcases List.mem_cons.mp hd with h1 | h2
          · rw [h1]; exact le_of_lt hlt
          · exact hmin d h2
        · intro x hx
          rw [List.all_eq_true] at hx ⊢
          exact fun d hd => hx d (List.mem_cons_of_mem _ hd)
      · have hcle : c.co2_kg ≤ d0.co2_kg := not_lt.mp hlt
        rw [if_neg hlt, firstMinCo2, List.filter_cons, if_pos ?hc2,
          List.head?_cons, List.head?_cons]
        case hc2 =>
          rw [List.all_eq_true]
          intro d hd
          rw [decide_eq_true_eq]
          rcases List.mem_cons.mp hd with h1 | h2
          · rw [h1]
          · exact le_trans hcle (hmin d h2)

/-- C8: for every candidate sequence, the selection of
`main_beam_demo.py` keeps exactly the candidates with utilization ≤ 1.0
and a true deflection flag, and returns the first (in original order) of
the kept candidates with minimal embodied CO2 — i.e. the head of the
stable CO2-ascending sort; when no candidate conforms the outcome is the
distinguishable `none` ("no conforming section"), not an error. -/
theorem c8_candidate_selection (candidates : List Candidate) :
    selectBest candidates = firstMinCo2 (candidates.filter conformsB) ∧
      (selectBest candidates = none ↔ candidates.filter conformsB = []) ∧
      ∀ c : Candidate, conformsB c = true ↔
        (c.utilization ≤ 1 ∧ c.deflection_ok = true) := by
  refine ⟨sortByCo2_head?_eq_firstMin _, ?_, ?_⟩
  · have h := List.head?_eq_none_iff
      (l := sortByCo2 (candidates.filter conformsB))
    rw [sortByCo2_eq_nil_iff] at h
    exact h
  · intro c
    simp [conformsB]

/-- Example rows for the C9 input (IPE-like sections). -/
def rowA : Row :=
  { profile := "IPE 200", A_cm2 := 285/10, rho_kg_per_m3 := 7850,
    co2_kg_per_kg := 19/10, W_cm3 := 194, I_cm4 := 1943 }

/-- Second example row. -/
def rowC : Row :=
  { profile := "IPE 300", A_cm2 := 538/10, rho_kg_per_m3 := 7850,
    co2_kg_per_kg := 19/10, W_cm3 := 557, I_cm4 := 8356 }

/-- A two-row materials table. -/
def dbSmall : List Row := [rowA, rowC]

/-- C9 fails on the code: with candidate list
["IPE 200", "IPE 999", "IPE 300"] over a table holding only IPE 200 and
IPE 300, the unknown middle profile makes the whole evaluation return the
lookup error — no candidate list is produced, even though the remaining
candidate IPE 300 resolves fine (second conjunct). -/
theorem c9_counterexample :
    (evalCandidates dbSmall M_Ed_main ["IPE 200", "IPE 999", "IPE 300"]).isOk
        = false ∧
      (get_section_row dbSmall "IPE 300").isOk = true := by
  constructor
  · simp [evalCandidates, get_section_row, dbSmall, rowA, rowC, Except.isOk,
      Except.toBool]
  · simp [get_section_row, dbSmall, rowA, rowC, Except.isOk, Except.toBool]

/-- C9 amended: the candidate loop of `main_beam_demo.py` has no
per-candidate error handling, so a materials-lookup failure for any one
candidate aborts the entire evaluation — the run produces no results for
the remaining candidates instead of excluding only the bad one.  (In the
shipped demo the candidate list is read out of the same table, so the
failure cannot actually occur there.) -/
theorem c9_lookup_failure_aborts (db : List Row) (M_Ed : ℚ)
    (profs : List String) (p : String) (hp : p ∈ profs)
    (hfail : db.find? (fun r => r.profile == p) = none) :
    (evalCandidates db M_Ed profs).isOk = false := by
  induction profs with
  | nil => cases hp
  | cons q rest ih =>
    rw [evalCandidates]
    rcases List.mem_cons.mp hp with h1 | h2
    · rw [← h1, get_section_row, hfail]
      rfl
    · cases hq : get_section_row db q with
      | error e => rfl
      | ok row =>
        cases hr : evalCandidates db M_Ed rest with
        | error e => rfl
        | ok cs =>
          exact absurd (ih h2)
            (by rw [hr]; simp [Except.isOk, Except.toBool])

/-- Witness for C9 at the concrete bad candidate list. -/
theorem c9_lookup_failure_aborts_witness :
    (evalCandidates dbSmall M_Ed_main ["IPE 200", "IPE 999"]).isOk
      = false :=
  c9_lookup_failure_aborts dbSmall M_Ed_main ["IPE 200", "IPE 999"]
    "IPE 999" (by simp) (by simp [dbSmall, rowA, rowC])

end MatDec
